import Mathlib

/-!
Verification of the Insight Generation Pipeline of the Expense-Tracker-App
repository, as described in its specification.

The embedding below translates the relevant TypeScript sources:
  - the data model (Transaction, AIInsight) from the types module;
  - the deterministic local analytics engine, the analyticsData memo of
    the Analytics page (income, expense, balance, savingsRate, healthScore,
    savings potential, analysis, forecast, recommendations);
  - the remote insight service getFinancialInsights of
    services/geminiService.ts (credential check, payload shaping, response
    merge, catch-all fallback);
  - the throwing service variant of the repository (part_000) used for the
    credential-absence comparison, and its 50-entry payload cap;
  - the strategy-tier ternary of the Analytics page.

JavaScript numbers are modelled as rationals. Division by zero in the
source is always guarded, so the rational total division (x / 0 = 0) is
never load-bearing. JavaScript Math.round rounds half toward positive
infinity, modelled as the floor of x + 1/2. Locale-specific currency
rendering (the toLocaleString runtime builtin, a presentation concern per
the specification) is modelled as a plain decimal rendering; no theorem
depends on its exact output.
-/

namespace ExpenseTracker

/-- Transaction kind, from the TransactionType enum of the types module. -/
inductive TransactionType where
  | INCOME : TransactionType
  | EXPENSE : TransactionType
deriving DecidableEq, BEq

/-- A transaction record, from the Transaction interface of the types
module. The field named type in the source is named ttype here because
type is a keyword; notes is optional in the source. -/
structure Transaction where
  id : String
  userId : String
  ttype : TransactionType
  amount : ℚ
  category : String
  date : String
  notes : Option String
  createdAt : String
deriving DecidableEq

/-- The pipeline output contract, from the AIInsight interface of the
types module. -/
structure AIInsight where
  analysis : String
  forecast : String
  recommendations : List String
  healthScore : ℚ
  savingsPotential : String
deriving DecidableEq

/-- JavaScript Math.round: round half toward positive infinity. -/
def jsRound (q : ℚ) : ℤ := ⌊q + 1 / 2⌋

/-- Sum of the amounts of the INCOME transactions, from the income
constant of the analyticsData memo (filter then reduce). -/
def income (ts : List Transaction) : ℚ :=
  (ts.filter (fun t => t.ttype == TransactionType.INCOME)).foldl (fun s t => s + t.amount) 0

/-- Sum of the amounts of the EXPENSE transactions, from the expense
constant of the analyticsData memo. -/
def expense (ts : List Transaction) : ℚ :=
  (ts.filter (fun t => t.ttype == TransactionType.EXPENSE)).foldl (fun s t => s + t.amount) 0

/-- Net balance, income minus expense, from the balance constant. -/
def balance (ts : List Transaction) : ℚ := income ts - expense ts

/-- Savings rate in percent, from the savingsRate constant:
income greater than 0 gives (balance / income) * 100, otherwise 0. -/
def savingsRate (ts : List Transaction) : ℚ :=
  if 0 < income ts then balance ts / income ts * 100 else 0

/-- Local health score, from the healthScore constant of the analyticsData
memo: the rounded savings rate clamped to the interval from 0 to 100. -/
def healthScore (ts : List Transaction) : ℤ :=
  min 100 (max 0 (jsRound (savingsRate ts)))

/-- The flexible spending categories of the analyticsData memo. -/
def flexibleCategories : List String := ["Entertainment", "Other", "Food"]

/-- Total spend in the flexible categories, from the flexSpend constant. -/
def flexSpend (ts : List Transaction) : ℚ :=
  (ts.filter (fun t =>
      t.ttype == TransactionType.EXPENSE && flexibleCategories.contains t.category)).foldl
    (fun s t => s + t.amount) 0

/-- Insert-or-accumulate on an association list, modelling one step of the
JavaScript Map update categoryMap.set(cat, (categoryMap.get(cat) or 0) + amount);
a JavaScript Map preserves first-insertion order. -/
def upsertTotal : List (String × ℚ) → String → ℚ → List (String × ℚ)
  | [], c, a => [(c, a)]
  | (c₀, v) :: rest, c, a =>
      if c₀ = c then (c₀, v + a) :: rest else (c₀, v) :: upsertTotal rest c a

/-- Per-category expense totals in first-insertion order, from the
categoryMap construction of the analyticsData memo. -/
def categoryTotals (ts : List Transaction) : List (String × ℚ) :=
  (ts.filter (fun t => t.ttype == TransactionType.EXPENSE)).foldl
    (fun m t => upsertTotal m t.category t.amount) []

/-- Category totals sorted descending by amount, from the sortedCategories
constant (a stable sort with comparator b.value - a.value). -/
def sortedCategories (ts : List Transaction) : List (String × ℚ) :=
  (categoryTotals ts).insertionSort (fun a b => b.2 ≤ a.2)

/-- Whether the dominant expense category is Food with a share above 0.4,
the third analysis condition of the analyticsData memo. -/
def topCategoryFood (ts : List Transaction) : Bool :=
  match (sortedCategories ts).head? with
  | none => false
  | some c => c.1 == "Food" && decide (2 / 5 < c.2 / expense ts)

/-- Behavioral analysis sentence of the analyticsData memo, selected by
the first matching rule. -/
def localAnalysis (ts : List Transaction) : String :=
  if savingsRate ts < 0 then
    "Your expenses are outpacing your income. Immediate budget adjustment recommended."
  else if 30 < savingsRate ts then
    "Exceptional savings rate. You are in the top tier of financial discipline."
  else if topCategoryFood ts then
    "Dining and groceries account for the majority of your outflow. Consider bulk buying."
  else
    "Your spending is currently stable."

/-- Plain decimal rendering of a rational, standing in for the JavaScript
toLocaleString runtime builtin; purely presentational, no theorem depends
on its exact output. -/
def formatAmount (q : ℚ) : String := toString q

/-- Forecast sentence of the analyticsData memo. -/
def localForecast (ts : List Transaction) : String :=
  "Based on current velocity, you will likely save ₱" ++ formatAmount (max 0 (balance ts))
    ++ " by month end."

/-- Savings potential of the analyticsData memo: 15 percent of the
flexible-category spend, rendered with a peso sign. -/
def localSavingsPotential (ts : List Transaction) : String :=
  "₱" ++ formatAmount (flexSpend ts * (15 / 100))

/-- Rule-based recommendation list of the analyticsData memo: three
conditional pushes, one filler push when fewer than three are present so
far, then slice(0, 3). -/
def localRecommendations (ts : List Transaction) : List String :=
  let recs :=
    (if savingsRate ts < 10 then
      ["Build an emergency fund covering 3-6 months of basic needs."] else [])
    ++ (if expense ts * (3 / 10) < flexSpend ts then
      ["Reduce discretionary spending in \x27Other\x27 and \x27Entertainment\x27 by 10%."] else [])
    ++ (if 0 < income ts then
      ["Automate a 15% transfer to savings on every payday."] else [])
  let recs :=
    if recs.length < 3 then
      recs ++ ["Review annual insurance and utility plans for cheaper alternatives."]
    else recs
  recs.take 3

/-- The AIInsight-shaped projection of the analyticsData memo: the
deterministic local pipeline (aggregate, then heuristic scorer). The
source object also carries chart data (income, expense, categories) that
is not part of the AIInsight contract. -/
def localInsight (ts : List Transaction) : AIInsight :=
  ⟨localAnalysis ts, localForecast ts, localRecommendations ts,
    (healthScore ts : ℚ), localSavingsPotential ts⟩

/-- A parsed remote response body, the result of JSON.parse on the
provider reply in services/geminiService.ts. A field is none when the key
is absent from the JSON object; present fields carry the schema type (the
schema constrains the provider, so a present field of a wrong runtime type
is out of scope of this model and of every claim). -/
structure ParsedResponse where
  analysis : Option String
  forecast : Option String
  recommendations : Option (List String)
  healthScore : Option ℚ
  savingsPotential : Option String
deriving DecidableEq

/-- Outcome of the remote augmentation step as observed inside the try
block of getFinancialInsights: a thrown SDK error, a falsy response.text
(which the source turns into a throw), a JSON.parse throw, or a
successfully parsed body. -/
inductive RemoteOutcome where
  | sdkError : RemoteOutcome
  | emptyText : RemoteOutcome
  | parseFailure : RemoteOutcome
  | ok : ParsedResponse → RemoteOutcome
deriving DecidableEq

/-- Whether the outcome reaches the catch block of getFinancialInsights. -/
def RemoteOutcome.isFailure : RemoteOutcome → Bool
  | .ok _ => false
  | _ => true

/-- JavaScript falsiness of the process.env.API_KEY lookup: the variable
is absent or the empty string. -/
def envFalsy : Option String → Bool
  | none => true
  | some s => decide (s = "")

/-- JavaScript x or-else d for a string field of the parsed response: the
only falsy string is the empty string. -/
def jsOrStr (x : Option String) (d : String) : String :=
  match x with
  | none => d
  | some s => if s = "" then d else s

/-- JavaScript x or-else d for a numeric field of the parsed response:
a falsy number is zero (NaN never arises from a schema-typed field). -/
def jsOrNum (x : Option ℚ) (d : ℚ) : ℚ :=
  match x with
  | none => d
  | some q => if q = 0 then d else q

/-- The merge of the parsed remote response into the returned insight,
from the return object of the try block of getFinancialInsights: each
field is parsed.field or-else a default. An array is always truthy in
JavaScript, so recommendations defaults only when absent. -/
def mergedInsight (p : ParsedResponse) : AIInsight :=
  ⟨jsOrStr p.analysis ("Analysis pending."),
    jsOrStr p.forecast ("Forecast pending."),
    p.recommendations.getD [],
    jsOrNum p.healthScore 50,
    jsOrStr p.savingsPotential ("₱0.00")⟩

/-- The static insight returned by the missing-credential branch of
getFinancialInsights. -/
def apiKeyMissingInsight : AIInsight :=
  ⟨"API Key not found. Please set the API_KEY environment variable.",
    "Unavailable",
    ["Ensure your environment variables are configured correctly."],
    0,
    "₱0.00"⟩

/-- The static insight returned by the catch block of
getFinancialInsights. -/
def catchFallbackInsight : AIInsight :=
  ⟨"Unable to generate AI analysis at this time.",
    "Projections currently unavailable.",
    ["Maintain consistent tracking.",
      "Review high-cost categories.",
      "Target a 20% savings rate."],
    0,
    "₱0.00"⟩

/-- The reduced payload entry of the simplifiedData constant of
services/geminiService.ts: date, type, amount, category. -/
structure SimplifiedTx where
  date : String
  ttype : TransactionType
  amount : ℚ
  category : String
deriving DecidableEq

/-- The request payload shaping of services/geminiService.ts:
transactions.map over the full list, reducing each entry to the minimal
field set. The source applies no length cap here. -/
def simplifiedData (ts : List Transaction) : List SimplifiedTx :=
  ts.map (fun t => ⟨t.date, t.ttype, t.amount, t.category⟩)

/-- The insight service of services/geminiService.ts. The transaction
list only shapes the request payload (simplifiedData); the returned value
depends on the credential and on the remote outcome. The source function
is async and total: the missing-credential branch returns early, and the
whole remote interaction sits inside a try whose catch returns the static
fallback, so no exception escapes. -/
def getFinancialInsights (apiKey : Option String) (ts : List Transaction)
    (o : RemoteOutcome) : AIInsight :=
  if envFalsy apiKey then apiKeyMissingInsight
  else
    let _payload := simplifiedData ts
    match o with
    | .ok p => mergedInsight p
    | _ => catchFallbackInsight

/-- The reduced payload entry of the summary constant of the service
variant part_000: type, amount, cat, date, note (note defaulting to the
empty string). -/
structure SummaryTxV0 where
  ttype : TransactionType
  amount : ℚ
  cat : String
  date : String
  note : String
deriving DecidableEq

/-- The payload shaping of the service variant part_000:
transactions.slice(0, 50).map, a hard cap of 50 entries. -/
def summaryV0 (ts : List Transaction) : List SummaryTxV0 :=
  (ts.take 50).map (fun t => ⟨t.ttype, t.amount, t.category, t.date, t.notes.getD ("")⟩)

/-- Outcome of the remote step as observed inside the try block of the
service variant part_000. The boolean of sdkError records whether the
thrown message matches the key-related patterns the catch block inspects
(contains the API-key-must-be-set wording, 403, or 401). -/
inductive RemoteOutcomeV0 where
  | sdkError : Bool → RemoteOutcomeV0
  | emptyText : RemoteOutcomeV0
  | ok : AIInsight → RemoteOutcomeV0
deriving DecidableEq

/-- The insight service variant part_000, which throws (modelled as
Except.error) instead of returning a fallback: a missing or blank
credential throws API_KEY_REQUIRED, an empty transaction list throws, an
empty response text throws and is re-thrown by the catch block with a
generic message, and a successfully parsed body is returned as-is with no
merge or validation (the source casts JSON.parse to AIInsight). -/
def getFinancialInsightsV0 (apiKey : Option String) (ts : List Transaction)
    (o : RemoteOutcomeV0) : Except String AIInsight :=
  if (match apiKey with | none => true | some k => decide (k.trim = "")) then
    Except.error ("API_KEY_REQUIRED")
  else if ts.isEmpty then
    Except.error ("No data available to analyze.")
  else
    match o with
    | .ok ins => Except.ok ins
    | .emptyText => Except.error ("Analysis failed. Please try again later.")
    | .sdkError keyRelated =>
        if keyRelated then Except.error ("API_KEY_REQUIRED")
        else Except.error ("Analysis failed. Please try again later.")

/-- The strategy-tier ternary of the Analytics page, applied to the
healthScore of the displayed insight. -/
def strategyTier (score : ℚ) : String :=
  if 80 < score then ("ELITE")
  else if 50 < score then ("STABLE")
  else ("ACTION REQ.")

/-- A concrete income transaction used by witnesses and counterexamples. -/
def txIncome100 : Transaction :=
  ⟨"t1", "u1", TransactionType.INCOME, 100, "Salary", "2024-01-01", none, "2024-01-01"⟩

/-- A concrete expense transaction used by witnesses and counterexamples. -/
def txExpense50 : Transaction :=
  ⟨"t2", "u1", TransactionType.EXPENSE, 50, "Food", "2024-01-02", none, "2024-01-02"⟩

/-- A one-transaction demonstration list. -/
def demoTxs : List Transaction := [txIncome100]

/-- A two-transaction demonstration list with a 50 percent savings rate. -/
def demoTxs2 : List Transaction := [txIncome100, txExpense50]

/-- A schema-valid parsed response except for an out-of-range health score
of 500. -/
def parsed500 : ParsedResponse :=
  ⟨some ("A"), some ("F"), some ["r1", "r2", "r3"], some 500, some ("₱1.00")⟩

/-- A parsed response carrying the falsy-but-schema-valid values: health
score 0 and empty analysis and forecast strings. -/
def parsedFalsy : ParsedResponse :=
  ⟨some (""), some (""), none, some 0, none⟩

/-- A parsed response with every field absent. -/
def parsedEmpty : ParsedResponse := ⟨none, none, none, none, none⟩

/-! Shared helper lemmas about the service branches. -/

/-- With a falsy credential the service returns the static missing-key
insight whatever the remote outcome would have been. -/
theorem getFI_noKey (key : Option String) (ts : List Transaction) (o : RemoteOutcome)
    (hk : envFalsy key = true) : getFinancialInsights key ts o = apiKeyMissingInsight := by
  unfold getFinancialInsights
  rw [hk]
  simp

/-- With a truthy credential, every failing remote outcome lands in the
catch block and yields the static fallback insight. -/
theorem getFI_failure (key : Option String) (ts : List Transaction) (o : RemoteOutcome)
    (hk : envFalsy key = false) (ho : o.isFailure = true) :
    getFinancialInsights key ts o = catchFallbackInsight := by
  unfold getFinancialInsights
  rw [hk]
  cases o with
  | ok p => simp [RemoteOutcome.isFailure] at ho
  | sdkError => simp
  | emptyText => simp
  | parseFailure => simp

/-- With a truthy credential, a parsed remote body is merged field by
field with the or-else defaults. -/
theorem getFI_ok (key : Option String) (ts : List Transaction) (p : ParsedResponse)
    (hk : envFalsy key = false) :
    getFinancialInsights key ts (RemoteOutcome.ok p) = mergedInsight p := by
  unfold getFinancialInsights
  rw [hk]
  simp

/-- The savings rate vanishes whenever the income total is not positive. -/
theorem savingsRate_of_not_pos (ts : List Transaction) (h : ¬ 0 < income ts) :
    savingsRate ts = 0 := by
  unfold savingsRate
  exact if_neg h

/-- The local recommendation list always has two or three entries: at
least one conditional push always fires, the filler push fires only when
fewer than three entries are present, and slice keeps at most three. -/
theorem localRecommendations_length (ts : List Transaction) :
    (localRecommendations ts).length = 2 ∨ (localRecommendations ts).length = 3 := by
  unfold localRecommendations
  by_cases h3 : 0 < income ts
  · by_cases h1 : savingsRate ts < 10 <;>
      by_cases h2 : expense ts * (3 / 10) < flexSpend ts <;>
        simp [h1, h2, h3]
  · have h1 : savingsRate ts < 10 := by
      rw [savingsRate_of_not_pos ts h3]
      norm_num
    by_cases h2 : expense ts * (3 / 10) < flexSpend ts <;> simp [h1, h2, h3]

/-! Claim C1. -/

/-- Claim C1, amended: on any failure of the remote augmentation step
(thrown SDK error, empty response body, JSON parse failure) with a truthy
credential, getFinancialInsights surfaces no exception and returns the
fixed static fallback insight of the catch block, the same value for every
transaction list; it is not the locally computed heuristic result. -/
theorem c1_failure_returns_static_fallback (key : Option String)
    (ts : List Transaction) (o : RemoteOutcome)
    (hk : envFalsy key = false) (ho : o.isFailure = true) :
    getFinancialInsights key ts o = catchFallbackInsight :=
  getFI_failure key ts o hk ho

/-- Witness for claim C1: the amended theorem applied to a concrete key,
transaction list and failing outcome. -/
theorem c1_failure_returns_static_fallback_witness :
    envFalsy (some ("k")) = false ∧
      RemoteOutcome.isFailure RemoteOutcome.sdkError = true ∧
      getFinancialInsights (some ("k")) demoTxs RemoteOutcome.sdkError = catchFallbackInsight :=
  ⟨rfl, rfl, c1_failure_returns_static_fallback (some ("k")) demoTxs RemoteOutcome.sdkError rfl rfl⟩

/-- Counterexample for claim C1 as stated: on a parse failure the returned
recommendations are the static catch-block list, which differs from the
locally computed heuristic recommendations for the same transactions, so
the returned value is not the local result. -/
theorem c1_catch_result_is_not_local : (getFinancialInsights (some ("k")) demoTxs
      RemoteOutcome.parseFailure).recommendations =
      ["Maintain consistent tracking.", "Review high-cost categories.",
        "Target a 20% savings rate."] ∧
    (localInsight demoTxs).recommendations =
      ["Automate a 15% transfer to savings on every payday.",
        "Review annual insurance and utility plans for cheaper alternatives."] ∧
    (getFinancialInsights (some ("k")) demoTxs RemoteOutcome.parseFailure).recommendations ≠
      (localInsight demoTxs).recommendations := by
  have h1 : (getFinancialInsights (some ("k")) demoTxs
      RemoteOutcome.parseFailure).recommendations =
      ["Maintain consistent tracking.", "Review high-cost categories.",
        "Target a 20% savings rate."] := rfl
  have h2 : (localInsight demoTxs).recommendations =
      ["Automate a 15% transfer to savings on every payday.",
        "Review annual insurance and utility plans for cheaper alternatives."] := by
    norm_num [localInsight, localRecommendations, savingsRate, balance, income, expense,
      flexSpend, flexibleCategories, demoTxs, txIncome100, List.filter, List.foldl]
  refine ⟨h1, h2, ?_⟩
  rw [h1, h2]
  decide

/-! Claim C2. -/

/-- Claim C2, amended: for every finite transaction list, including the
empty list, the deterministic local pipeline terminates and produces a
fully populated insight whose healthScore lies in the interval from 0 to
100 and whose recommendations list has length two or three (only two when
a single rule condition fires, for example on the empty list). -/
theorem c2_local_pipeline_bounds (ts : List Transaction) :
    0 ≤ (localInsight ts).healthScore ∧ (localInsight ts).healthScore ≤ 100 ∧
      ((localInsight ts).recommendations.length = 2 ∨
        (localInsight ts).recommendations.length = 3) := by
  have h0 : (0 : ℤ) ≤ healthScore ts := by
    unfold healthScore
    exact le_min (by norm_num) (le_max_left 0 _)
  have h1 : healthScore ts ≤ 100 := by
    unfold healthScore
    exact min_le_left _ _
  refine ⟨?_, ?_, ?_⟩
  · show (0 : ℚ) ≤ ((healthScore ts : ℤ) : ℚ)
    exact_mod_cast h0
  · show ((healthScore ts : ℤ) : ℚ) ≤ 100
    exact_mod_cast h1
  · exact localRecommendations_length ts

/-- Counterexample for claim C2 as stated: on the empty transaction list
the local pipeline emits only two recommendations, not exactly three. -/
theorem c2_two_recommendations_on_empty :
    (localInsight ([] : List Transaction)).recommendations.length = 2 ∧ (2 : ℕ) ≠ 3 := by
  constructor
  · norm_num [localInsight, localRecommendations, savingsRate, balance, income, expense,
      flexSpend, flexibleCategories, List.filter, List.foldl]
  · decide

/-! Claim C3. -/

/-- Claim C3, amended: given a remote response valid in every field except
healthScore (for example 500, outside the range from 0 to 100), the
returned insight preserves every remote field unchanged, including the
out-of-range healthScore: the merge replaces a field only when it is
absent or falsy, performs no range validation, never substitutes the local
score, and the insight carries no source tag. -/
theorem c3_merge_passes_truthy_fields (ts : List Transaction) (p : ParsedResponse)
    (h : ℚ) (a f sp : String) (r : List String)
    (hh : p.healthScore = some h) (hnz : ¬ h = 0)
    (ha : p.analysis = some a) (hna : ¬ a = "")
    (hf : p.forecast = some f) (hnf : ¬ f = "")
    (hsp : p.savingsPotential = some sp) (hnsp : ¬ sp = "")
    (hr : p.recommendations = some r) :
    getFinancialInsights (some ("k")) ts (RemoteOutcome.ok p) = ⟨a, f, r, h, sp⟩ := by
  rw [getFI_ok _ _ _ (by decide)]
  unfold mergedInsight jsOrStr jsOrNum
  rw [hh, ha, hf, hsp, hr]
  simp [hna, hnf, hnsp, hnz]

/-- Witness for claim C3: the amended theorem applied to the concrete
response carrying healthScore 500 with all other fields valid. -/
theorem c3_merge_passes_truthy_fields_witness :
    getFinancialInsights (some ("k")) demoTxs (RemoteOutcome.ok parsed500) =
      ⟨"A", "F", ["r1", "r2", "r3"], 500, "₱1.00"⟩ :=
  c3_merge_passes_truthy_fields demoTxs parsed500 500 ("A") ("F") ("₱1.00")
    ["r1", "r2", "r3"] rfl (by norm_num) rfl (by decide) rfl (by decide) rfl (by decide) rfl

/-- Counterexample for claim C3 as stated: with remote healthScore 500 the
pipeline returns healthScore 500, while the local heuristic score for the
same transactions is 100, so the out-of-range value is not replaced by the
local score. -/
theorem c3_healthScore500_not_replaced :
    (getFinancialInsights (some ("k")) demoTxs (RemoteOutcome.ok parsed500)).healthScore = 500 ∧
    (localInsight demoTxs).healthScore = 100 ∧
    (getFinancialInsights (some ("k")) demoTxs (RemoteOutcome.ok parsed500)).healthScore ≠
      (localInsight demoTxs).healthScore := by
  have e : getFinancialInsights (some ("k")) demoTxs (RemoteOutcome.ok parsed500) =
      mergedInsight parsed500 := getFI_ok _ _ _ (by decide)
  have h1 : (mergedInsight parsed500).healthScore = 500 := by
    norm_num [mergedInsight, jsOrNum, parsed500]
  have h2 : (localInsight demoTxs).healthScore = 100 := by
    norm_num [localInsight, healthScore, jsRound, savingsRate, balance, income, expense,
      demoTxs, txIncome100, List.filter, List.foldl]
  refine ⟨by rw [e, h1], h2, ?_⟩
  rw [e, h1, h2]
  norm_num

/-! Claim C4. -/

/-- Claim C4, amended: the local heuristic health score equals
clamp(round(savingsRate), 0, 100) where savingsRate is the percentage
(balance / income) * 100 whenever income is positive, with no additive
offset; and it equals 0 whenever income is not positive, both when
expenses exist and for the empty transaction list. -/
theorem c4_healthScore_formula (ts : List Transaction) :
    (0 < income ts →
      healthScore ts = min 100 (max 0 (jsRound (balance ts / income ts * 100)))) ∧
    (¬ 0 < income ts → healthScore ts = 0) := by
  constructor
  · intro h
    unfold healthScore savingsRate
    rw [if_pos h]
  · intro h
    unfold healthScore savingsRate
    rw [if_neg h]
    norm_num [jsRound]

/-- Witness for claim C4: the amended theorem applied to a list with
positive income and to the empty list. -/
theorem c4_healthScore_formula_witness :
    healthScore demoTxs2 =
        min 100 (max 0 (jsRound (balance demoTxs2 / income demoTxs2 * 100))) ∧
      healthScore ([] : List Transaction) = 0 :=
  ⟨(c4_healthScore_formula demoTxs2).1
      (by norm_num [income, demoTxs2, txIncome100, txExpense50, List.filter, List.foldl]),
    (c4_healthScore_formula []).2 (by norm_num [income, List.filter, List.foldl])⟩

/-- Counterexample for claim C4 as stated: for one income of 100 and one
expense of 50 the code yields score 50 while the claimed formula with the
additive offset of 20 yields 70; and on the empty list the code yields 0,
not the claimed 100. -/
theorem c4_score_deviates_from_claimed_formula :
    healthScore demoTxs2 ≠
        min 100 (max 0 (jsRound (balance demoTxs2 / income demoTxs2 * 100) + 20)) ∧
      healthScore ([] : List Transaction) ≠ 100 := by
  constructor
  · norm_num [healthScore, jsRound, savingsRate, balance, income, expense, demoTxs2,
      txIncome100, txExpense50, List.filter, List.foldl]
  · norm_num [healthScore, jsRound, savingsRate, balance, income, expense,
      List.filter, List.foldl]

/-! Claim C5. -/

/-- Claim C5, amended: every branch of getFinancialInsights returns a
fully populated insight, but only the catch-path fallback has exactly
three recommendations; the no-credential branch returns exactly one
recommendation (healthScore 0 in both), and the merged branch performs
no validation, passing the remote recommendations through (defaulting to
the empty list when absent) and defaulting healthScore to 50 only when
the remote value is falsy. -/
theorem c5_branch_population (ts : List Transaction) (o : RemoteOutcome) (k : String)
    (p : ParsedResponse) (hk : ¬ k = "") (ho : o.isFailure = true)
    (hp : p.recommendations = none) :
    (getFinancialInsights none ts o).recommendations.length = 1 ∧
    (getFinancialInsights none ts o).healthScore = 0 ∧
    (getFinancialInsights (some k) ts o).recommendations.length = 3 ∧
    (getFinancialInsights (some k) ts o).healthScore = 0 ∧
    (getFinancialInsights (some k) ts (RemoteOutcome.ok p)).recommendations = [] ∧
    (getFinancialInsights (some k) ts (RemoteOutcome.ok p)).healthScore =
      jsOrNum p.healthScore 50 := by
  have hk' : envFalsy (some k) = false := by
    unfold envFalsy
    simp [hk]
  rw [getFI_noKey none ts o rfl, getFI_failure (some k) ts o hk' ho,
    getFI_ok (some k) ts p hk']
  refine ⟨rfl, rfl, rfl, rfl, ?_, rfl⟩
  simp [mergedInsight, hp]

/-- Witness for claim C5: the amended theorem applied to a concrete key,
failing outcome and field-free parsed response. -/
theorem c5_branch_population_witness :
    (getFinancialInsights none ([] : List Transaction)
        RemoteOutcome.sdkError).recommendations.length = 1 ∧
    (getFinancialInsights none ([] : List Transaction) RemoteOutcome.sdkError).healthScore = 0 ∧
    (getFinancialInsights (some ("k")) ([] : List Transaction)
        RemoteOutcome.sdkError).recommendations.length = 3 ∧
    (getFinancialInsights (some ("k")) ([] : List Transaction)
        RemoteOutcome.sdkError).healthScore = 0 ∧
    (getFinancialInsights (some ("k")) ([] : List Transaction)
        (RemoteOutcome.ok parsedEmpty)).recommendations = [] ∧
    (getFinancialInsights (some ("k")) ([] : List Transaction)
        (RemoteOutcome.ok parsedEmpty)).healthScore = jsOrNum parsedEmpty.healthScore 50 :=
  c5_branch_population [] RemoteOutcome.sdkError ("k") parsedEmpty (by decide) rfl rfl

/-- Counterexample for claim C5 as stated: the no-credential branch
returns a single recommendation, not a sequence of exactly three. -/
theorem c5_noKey_single_recommendation :
    (getFinancialInsights none demoTxs RemoteOutcome.emptyText).recommendations.length = 1 ∧
      (1 : ℕ) ≠ 3 :=
  ⟨rfl, by decide⟩

/-! Claim C6. -/

/-- Claim C6, amended: when the credential is absent or empty, the service
of geminiService.ts does not throw and reports the absence as a normal
return value, but that value is the fixed static missing-key insight, not
the local heuristic result, and it carries no source tag; the service
variant part_000 instead throws API_KEY_REQUIRED on a missing
credential. -/
theorem c6_noCredential_static_result (key : Option String) (ts : List Transaction)
    (o : RemoteOutcome) (o0 : RemoteOutcomeV0) (hk : envFalsy key = true) :
    getFinancialInsights key ts o = apiKeyMissingInsight ∧
      getFinancialInsightsV0 none ts o0 = Except.error ("API_KEY_REQUIRED") :=
  ⟨getFI_noKey key ts o hk, rfl⟩

/-- Witness for claim C6: the amended theorem applied to an absent key. -/
theorem c6_noCredential_static_result_witness :
    getFinancialInsights none demoTxs RemoteOutcome.sdkError = apiKeyMissingInsight ∧
      getFinancialInsightsV0 none demoTxs RemoteOutcomeV0.emptyText =
        Except.error ("API_KEY_REQUIRED") :=
  c6_noCredential_static_result none demoTxs RemoteOutcome.sdkError
    RemoteOutcomeV0.emptyText rfl

/-- Counterexample for claim C6 as stated: with no credential the returned
recommendations are the static missing-key list, which differs from the
locally computed heuristic recommendations, so the operation does not
return the local result. -/
theorem c6_noCredential_not_local :
    (getFinancialInsights none demoTxs RemoteOutcome.sdkError).recommendations ≠
      (localInsight demoTxs).recommendations := by
  have h1 : (getFinancialInsights none demoTxs RemoteOutcome.sdkError).recommendations =
      ["Ensure your environment variables are configured correctly."] := rfl
  have h2 : (localInsight demoTxs).recommendations =
      ["Automate a 15% transfer to savings on every payday.",
        "Review annual insurance and utility plans for cheaper alternatives."] := by
    norm_num [localInsight, localRecommendations, savingsRate, balance, income, expense,
      flexSpend, flexibleCategories, demoTxs, txIncome100, List.filter, List.foldl]
  rw [h1, h2]
  decide

/-! Claim C7. -/

/-- Claim C7, amended: the payload of the main service reduces every
transaction to the minimal field set but applies no length cap, so the
number of entries sent equals the input length; the service variant
part_000 caps its payload at the first 50 entries. -/
theorem c7_payload_shaping (ts : List Transaction) :
    (simplifiedData ts).length = ts.length ∧ (summaryV0 ts).length ≤ 50 := by
  constructor
  · simp [simplifiedData]
  · simp only [summaryV0, List.length_map, List.length_take]
    exact min_le_left _ _

/-- Counterexample for claim C7 as stated: a list of 51 transactions is
transmitted by the main service as 51 entries, exceeding the claimed cap
of at most 40 to 50. -/
theorem c7_payload_uncapped_at_51 :
    (simplifiedData (List.replicate 51 txIncome100)).length = 51 ∧ ¬ (51 : ℕ) ≤ 50 := by
  constructor
  · simp [simplifiedData]
  · decide

/-! Claim C8. -/

/-- Claim C8: the strategy tier classification maps a health score above
80 to the top tier, a score above 50 (and at most 80) to STABLE, and
everything else to the bottom tier; the boundaries are exclusive on the
lower bound, so exactly 80 is STABLE and exactly 50 falls into the bottom
tier. -/
theorem c8_strategyTier_boundaries (s : ℚ) :
    (80 < s → strategyTier s = ("ELITE")) ∧
    (50 < s → s ≤ 80 → strategyTier s = ("STABLE")) ∧
    (s ≤ 50 → strategyTier s = ("ACTION REQ.")) ∧
    strategyTier (80 : ℚ) = ("STABLE") ∧
    strategyTier (50 : ℚ) = ("ACTION REQ.") := by
  refine ⟨fun h => ?_, fun h1 h2 => ?_, fun h => ?_, ?_, ?_⟩
  · unfold strategyTier
    rw [if_pos h]
  · unfold strategyTier
    rw [if_neg (not_lt.mpr h2), if_pos h1]
  · unfold strategyTier
    rw [if_neg (not_lt.mpr (h.trans (by norm_num))), if_neg (not_lt.mpr h)]
  · norm_num [strategyTier]
  · norm_num [strategyTier]

/-- Witness for claim C8: the theorem applied at scores 100, 60 and 40,
together with its boundary facts at exactly 80 and exactly 50. -/
theorem c8_strategyTier_boundaries_witness :
    strategyTier (100 : ℚ) = ("ELITE") ∧ strategyTier (60 : ℚ) = ("STABLE") ∧
      strategyTier (40 : ℚ) = ("ACTION REQ.") ∧ strategyTier (80 : ℚ) = ("STABLE") ∧
      strategyTier (50 : ℚ) = ("ACTION REQ.") :=
  ⟨(c8_strategyTier_boundaries 100).1 (by norm_num),
    (c8_strategyTier_boundaries 60).2.1 (by norm_num) (by norm_num),
    (c8_strategyTier_boundaries 40).2.2.1 (by norm_num),
    (c8_strategyTier_boundaries 0).2.2.2.1,
    (c8_strategyTier_boundaries 0).2.2.2.2⟩

/-! Claim C9. -/

/-- Claim C9: for every transaction list whose income total is zero,
including the empty list, the savings rate is exactly 0, because the
division by the income total is guarded by a positivity check. -/
theorem c9_savingsRate_zero_when_no_income (ts : List Transaction)
    (h : income ts = 0) : savingsRate ts = 0 :=
  savingsRate_of_not_pos ts (by rw [h]; exact lt_irrefl 0)

/-- Witness for claim C9: the theorem applied to the empty list. -/
theorem c9_savingsRate_zero_witness :
    income ([] : List Transaction) = 0 ∧ savingsRate ([] : List Transaction) = 0 :=
  ⟨rfl, c9_savingsRate_zero_when_no_income [] rfl⟩

/-! Claim C10. -/

/-- Claim C10: the merge of the remote response substitutes defaults based
on JavaScript falsiness rather than schema validity: a schema-valid remote
healthScore of 0 is replaced by 50, and schema-valid empty analysis or
forecast strings are replaced by the pending placeholder texts, so a valid
remote value of 0 or the empty string is never preserved. -/
theorem c10_falsy_merge_substitutes (ts : List Transaction) (p : ParsedResponse) :
    (p.healthScore = some 0 →
      (getFinancialInsights (some ("k")) ts (RemoteOutcome.ok p)).healthScore = 50) ∧
    (p.analysis = some ("") →
      (getFinancialInsights (some ("k")) ts (RemoteOutcome.ok p)).analysis =
        ("Analysis pending.")) ∧
    (p.forecast = some ("") →
      (getFinancialInsights (some ("k")) ts (RemoteOutcome.ok p)).forecast =
        ("Forecast pending.")) := by
  refine ⟨fun h => ?_, fun h => ?_, fun h => ?_⟩ <;>
    rw [getFI_ok _ _ _ (by decide)] <;>
      simp [mergedInsight, jsOrNum, jsOrStr, h]

/-- Witness for claim C10: the theorem applied to the concrete response
with healthScore 0 and empty analysis and forecast strings. -/
theorem c10_falsy_merge_substitutes_witness :
    parsedFalsy.healthScore = some 0 ∧
    (getFinancialInsights (some ("k")) demoTxs
        (RemoteOutcome.ok parsedFalsy)).healthScore = 50 ∧
    (getFinancialInsights (some ("k")) demoTxs (RemoteOutcome.ok parsedFalsy)).analysis =
      ("Analysis pending.") ∧
    (getFinancialInsights (some ("k")) demoTxs (RemoteOutcome.ok parsedFalsy)).forecast =
      ("Forecast pending.") :=
  ⟨rfl, (c10_falsy_merge_substitutes demoTxs parsedFalsy).1 rfl,
    (c10_falsy_merge_substitutes demoTxs parsedFalsy).2.1 rfl,
    (c10_falsy_merge_substitutes demoTxs parsedFalsy).2.2 rfl⟩

end ExpenseTracker
